import Mathlib

/-!
Shallow embedding of `app/scripts/controllers/transactions/tx-gas-utils.js`
(class `TxGasUtil`) from the conflux-portal repository: the gas/storage
estimation and buffering subsystem.

Modelling conventions:
* Hex-string encoded unsigned integers are modelled by their numeric value
  as `Nat` (the hex round-trip `hexToBn`/`bnToHex`/`addHexPrefix` is
  value-preserving, so it is the identity in this model).
* An optional JavaScript field that may be `undefined` is an `Option`.
  JavaScript truthiness `Boolean(x)` on an optional string is false exactly
  for `undefined` and the empty string; for the numeric-valued fields
  `gas`/`storageLimit`, `none` stands for "absent or empty string"
  (the normalization stated by the spec: both count as unspecified), so their
  truthiness is `Option.isSome`.
* The network query adapter (`this.query`) is external: its two calls are
  passed in as parameters — the latest-block fetch as an
  `Except JsError Block` (an `Except.error` models the fetch throwing) and
  `estimateGas` as a function from the transaction params to an
  `Except JsError (Nat × Nat)` (gasUsed, storageCollateralized).
* The contract-address classifier `isValidContractAddress` (from cfx-util)
  is an external pure predicate, passed in as a parameter.
-/

namespace TxGasUtil

/-- JavaScript truthiness of an optional string field: `undefined` and the
empty string are falsy, every other string is truthy. -/
def jsTruthyStr : Option String → Bool
  | none => false
  | some s => s != ""

/-- Constant `SIMPLE_GAS_COST = 0x5208`, cost of a simple send (21000). -/
def SIMPLE_GAS_COST : Nat := 0x5208

/-- Constant `SIMPLE_STORAGE_COST = 0x0`, storage cost of a simple send. -/
def SIMPLE_STORAGE_COST : Nat := 0x0

/-- Modelled from the spec: the `SEND_ETHER_ACTION_KEY` constant (defined in
`ui/app/helpers/constants/transactions.js`, not under `src/`): the tag
distinguishing a recognized simple-value-transfer intent. Only equality with
`transactionCategory` matters, so the literal value is irrelevant. -/
def SEND_ETHER_ACTION_KEY : String := "sentEther"

/-- Modelled from the spec: the `TRANSACTION_NO_CONTRACT_ERROR_KEY` constant
(defined in `ui/app/helpers/constants/error-keys.js`, not under `src/`): the
error key of the non-contract-call rejection. Only equality matters. -/
def TRANSACTION_NO_CONTRACT_ERROR_KEY : String := "transactionErrorNoContract"

/-- The mutable subset of a transaction destined for the network
(`txMeta.txParams`). -/
structure TxParams where
  -- source field name: `to` (a reserved token in Lean)
  toAddr : Option String := none
  data : Option String := none
  gas : Option Nat := none
  storageLimit : Option Nat := none
deriving Repr, DecidableEq

/-- The `debug` record stored inside `simulationFails`. The
`getCodeResponse` field is only attached on the non-contract-call error;
its inner `Option String` is the (possibly `undefined`) code-lookup result
passed through `analyzeGasUsage`. -/
structure SimulationDebug where
  blockNumber : Nat
  blockGasLimit : Nat
  getCodeResponse : Option (Option String) := none
deriving Repr, DecidableEq

/-- The structured failure record `txMeta.simulationFails`. -/
structure SimulationFails where
  reason : String
  errorKey : Option String := none
  debug : SimulationDebug
deriving Repr, DecidableEq

/-- The transaction metadata record mutated in place by the estimator.
Boolean fields default to `false` (JavaScript `undefined` is falsy), the
optional ones to `none` (property absent). -/
structure TxMeta where
  txParams : TxParams
  transactionCategory : Option String := none
  simpleSend : Bool := false
  gasLimitSpecified : Bool := false
  storageLimitSpecified : Bool := false
  estimatedGas : Option Nat := none
  estimatedStorage : Option Nat := none
  simulationFails : Option SimulationFails := none
deriving Repr, DecidableEq

/-- A thrown JavaScript error value: a message plus the dynamic
`errorKey` / `getCodeResponse` properties the source bolts onto it. -/
structure JsError where
  message : String
  errorKey : Option String := none
  getCodeResponse : Option (Option String) := none
deriving Repr, DecidableEq

/-- The latest-block snapshot returned by `getBlockByNumber(latest, false)`:
block number and block gas limit (hex-encoded unsigned integers, modelled
by value). -/
structure Block where
  number : Nat
  gasLimit : Nat
deriving Repr, DecidableEq

/-- Modelled from the spec: `BnMultiplyByFraction` from `app/scripts/lib/util`
(not under `src/`) — exact integer fraction scaling
`target * numerator / denominator`, truncating. -/
def BnMultiplyByFraction (target numerator denominator : Nat) : Nat :=
  target * numerator / denominator

/-- Modelled from the spec: the bn.js `muln(0.9)` call on the block gas limit,
which the numeric contract of the spec reimplements as the exact rational scaling
`value * 9 / 10` on arbitrary-precision integers (truncating). -/
def muln9over10 (value : Nat) : Nat := value * 9 / 10

/-- Modelled from the spec: the bn.js `muln(1.5)` call on the initial gas
limit, which the numeric contract of the spec reimplements as the exact rational
scaling `value * 3 / 2` on arbitrary-precision integers (truncating). -/
def muln3over2 (value : Nat) : Nat := value * 3 / 2

/-- Source method `addGasBuffer(initialGasLimitHex, blockGasLimitHex)`: adds a gas buffer
without exceeding 90% of the block gas limit. Direct translation of the
source; `hexToBn`/`bnToHex` are the identity on values. -/
def addGasBuffer (initialGasLimit blockGasLimit : Nat) : Nat :=
  let upperGasLimit := muln9over10 blockGasLimit
  let bufferedGasLimit := muln3over2 initialGasLimit
  -- if initialGasLimit is above blockGasLimit, dont modify it
  if upperGasLimit < initialGasLimit then initialGasLimit
  -- if bufferedGasLimit is below blockGasLimit, use bufferedGasLimit
  else if bufferedGasLimit < upperGasLimit then bufferedGasLimit
  -- otherwise use blockGasLimit
  else upperGasLimit

/-- The error thrown on the non-contract-call rejection: message, the
`errorKey` property, and the code-lookup response attached as the
`getCodeResponse` property. -/
def noContractError (getCodeResponse : Option String) : JsError :=
  { message := "TxGasUtil - Trying to call a function on a non-contract address"
    errorKey := some TRANSACTION_NO_CONTRACT_ERROR_KEY
    getCodeResponse := some getCodeResponse }

/-- Source method `estimateTxGasAndCollateral(txMeta, blockGasLimitHex, getCodeResponse)`.
Returns the mutated `txMeta` together with either the thrown error or the
destructured `{ gasUsed, storageCollateralized }` of the returned value.
The simple-send path returns the bare string `SIMPLE_GAS_COST`, which the
caller destructures into `undefined`/`undefined` — modelled as
`(none, none)`. The network path is `estimateGas` applied to the
already-mutated params. -/
def estimateTxGasAndCollateral
    (isValidContractAddress : String → Bool)
    (estimateGas : TxParams → Except JsError (Nat × Nat))
    (txMeta : TxMeta) (blockGasLimit : Nat) (getCodeResponse : Option String) :
    TxMeta × Except JsError (Option Nat × Option Nat) :=
  -- if (txParams.to && !isValidContractAddress(txParams.to)) simpleSend = true
  let m1 :=
    if jsTruthyStr txMeta.txParams.toAddr &&
        !isValidContractAddress (txMeta.txParams.toAddr.getD "") then
      { txMeta with simpleSend := true }
    else txMeta
  -- check if gasLimit / storageLimit are already specified
  let m2 := { m1 with
    gasLimitSpecified := m1.txParams.gas.isSome
    storageLimitSpecified := m1.txParams.storageLimit.isSome }
  -- default an unspecified storageLimit to SIMPLE_STORAGE_COST
  let m3 :=
    if !m2.storageLimitSpecified then
      { m2 with
        txParams := { m2.txParams with storageLimit := some SIMPLE_STORAGE_COST }
        storageLimitSpecified := true }
    else m2
  -- if both are specified, use those values (short-circuit)
  if m3.gasLimitSpecified && m3.storageLimitSpecified then
    (m3, .ok (m3.txParams.gas, m3.txParams.storageLimit))
  else
    -- see if we can set the gas based on the recipient
    if jsTruthyStr m3.txParams.toAddr &&
        (m3.transactionCategory == some SEND_ETHER_ACTION_KEY) then
      -- data on a non-contract address: not a valid transaction
      if jsTruthyStr m3.txParams.data then
        (m3, .error (noContractError getCodeResponse))
      else
        -- standard simple send: gas requirement is exactly 21k
        let m4 := { m3 with
          txParams := { m3.txParams with gas := some SIMPLE_GAS_COST }
          simpleSend := true }
        (m4, .ok (none, none))
    else
      -- fallback to block gasLimit, then estimate tx gas requirements
      let saferGasLimit := BnMultiplyByFraction blockGasLimit 19 20
      let m4 := { m3 with
        txParams := { m3.txParams with gas := some saferGasLimit } }
      (m4, (estimateGas m4.txParams).map (fun gs => (some gs.1, some gs.2)))

/-- Source method `setTxGas(txMeta, blockGasLimitHex, ...estimates...)`:
writes the gas/storage estimates onto the record. `addHexPrefix` is the
identity on values. In the branch that buffers, `txMeta.estimatedGas` is
always a present hex string on every path reaching it from
`analyzeGasUsage` (the `(none, none)` producer sets `simpleSend`), so the
`getD 0` default is never exercised there. -/
def setTxGas (txMeta : TxMeta) (blockGasLimit : Nat)
    (estimatedGasHex estimatedStorageHex : Option Nat) : TxMeta :=
  let m := { txMeta with
    estimatedGas := estimatedGasHex
    estimatedStorage := estimatedStorageHex }
  if m.simpleSend then
    { m with estimatedGas := m.txParams.gas
             estimatedStorage := some SIMPLE_STORAGE_COST }
  else
    let m :=
      if m.storageLimitSpecified then
        { m with estimatedStorage := m.txParams.storageLimit }
      else m
    -- if gasLimit was specified and doesnt OOG, use original specified amount
    if m.gasLimitSpecified then
      { m with estimatedGas := m.txParams.gas }
    else
      -- gasLimit not originally specified: add a gas buffer for safety
      let recommendedGas := addGasBuffer (m.estimatedGas.getD 0) blockGasLimit
      let m := { m with txParams := { m.txParams with gas := some recommendedGas } }
      if !m.storageLimitSpecified then
        { m with txParams := { m.txParams with storageLimit := m.estimatedStorage } }
      else m

/-- Source method `analyzeGasUsage(txMeta, getCodeResponse)`. The first component of the
result is the transaction record after the call; the second is `some e`
when the call throws `e` uncaught (only the initial block fetch can), and
`none` when it returns normally. Failures inside
`estimateTxGasAndCollateral` are caught and recorded in `simulationFails`,
adding the code-lookup response to `debug` for the non-contract-call
rejection. -/
def analyzeGasUsage
    (isValidContractAddress : String → Bool)
    (getBlockByNumber : Except JsError Block)
    (estimateGas : TxParams → Except JsError (Nat × Nat))
    (txMeta : TxMeta) (getCodeResponse : Option String) :
    TxMeta × Option JsError :=
  match getBlockByNumber with
  | .error e => (txMeta, some e)
  | .ok block =>
    let r := estimateTxGasAndCollateral isValidContractAddress estimateGas
      txMeta block.gasLimit getCodeResponse
    match r.2 with
    | .error err =>
      let debug : SimulationDebug :=
        { blockNumber := block.number
          blockGasLimit := block.gasLimit
          getCodeResponse :=
            if err.errorKey == some TRANSACTION_NO_CONTRACT_ERROR_KEY then
              err.getCodeResponse
            else none }
      let fails : SimulationFails :=
        { reason := err.message, errorKey := err.errorKey, debug := debug }
      ({ r.1 with simulationFails := some fails }, none)
    | .ok gs => (setTxGas r.1 block.gasLimit gs.1 gs.2, none)

/-! ## General lemmas about the estimator and the metadata writer -/

/-- After the specified-limits bookkeeping (which every return path of
`estimateTxGasAndCollateral` passes through), `storageLimitSpecified` is
always true: an absent storage limit is defaulted and marked specified. -/
theorem estimate_storageLimitSpecified
    (icva : String → Bool) (f : TxParams → Except JsError (Nat × Nat))
    (m : TxMeta) (bgl : Nat) (gcr : Option String) :
    (estimateTxGasAndCollateral icva f m bgl gcr).1.storageLimitSpecified = true := by
  simp only [estimateTxGasAndCollateral]
  repeat' split
  all_goals simp_all [Option.isSome_iff_ne_none]

/-- The method `estimateTxGasAndCollateral` never touches `estimatedGas`,
`estimatedStorage` or `simulationFails` on the record it returns. -/
theorem estimate_preserves_estimates
    (icva : String → Bool) (f : TxParams → Except JsError (Nat × Nat))
    (m : TxMeta) (bgl : Nat) (gcr : Option String) :
    (estimateTxGasAndCollateral icva f m bgl gcr).1.estimatedGas = m.estimatedGas ∧
    (estimateTxGasAndCollateral icva f m bgl gcr).1.estimatedStorage = m.estimatedStorage ∧
    (estimateTxGasAndCollateral icva f m bgl gcr).1.simulationFails = m.simulationFails := by
  simp only [estimateTxGasAndCollateral]
  repeat' split
  all_goals simp_all [Option.isSome_iff_ne_none]

/-- A caller-specified (present) storage limit is never overwritten by
`estimateTxGasAndCollateral`. -/
theorem estimate_preserves_specified_storageLimit
    (icva : String → Bool) (f : TxParams → Except JsError (Nat × Nat))
    (m : TxMeta) (bgl : Nat) (gcr : Option String) (sv : Nat)
    (hs : m.txParams.storageLimit = some sv) :
    (estimateTxGasAndCollateral icva f m bgl gcr).1.txParams.storageLimit = some sv := by
  simp only [estimateTxGasAndCollateral]
  repeat' split
  all_goals simp_all [Option.isSome_iff_ne_none]

/-- A caller-specified (present) gas limit forces the short-circuit, so it is
never overwritten by `estimateTxGasAndCollateral`; the `gasLimitSpecified`
flag is recorded as true. -/
theorem estimate_preserves_specified_gas
    (icva : String → Bool) (f : TxParams → Except JsError (Nat × Nat))
    (m : TxMeta) (bgl : Nat) (gcr : Option String) (gv : Nat)
    (hg : m.txParams.gas = some gv) :
    (estimateTxGasAndCollateral icva f m bgl gcr).1.txParams.gas = some gv ∧
    (estimateTxGasAndCollateral icva f m bgl gcr).1.gasLimitSpecified = true := by
  simp only [estimateTxGasAndCollateral]
  repeat' split
  all_goals simp_all [Option.isSome_iff_ne_none]

/-- The writer `setTxGas` never changes the `simpleSend` flag. -/
theorem setTxGas_simpleSend (m : TxMeta) (bgl : Nat) (g s : Option Nat) :
    (setTxGas m bgl g s).simpleSend = m.simpleSend := by
  simp only [setTxGas]
  repeat' split
  all_goals simp_all

/-- When the record is marked `simpleSend` or `gasLimitSpecified`, `setTxGas`
returns before the buffering step and leaves `txParams` untouched. -/
theorem setTxGas_txParams_preserved (m : TxMeta) (bgl : Nat) (g s : Option Nat)
    (h : m.simpleSend = true ∨ m.gasLimitSpecified = true) :
    (setTxGas m bgl g s).txParams = m.txParams := by
  simp only [setTxGas]
  repeat' split
  all_goals simp_all

/-- On a non-simple-send record with `storageLimitSpecified` set, `setTxGas`
finalizes `estimatedStorage` as the value of `txParams.storageLimit`. -/
theorem setTxGas_estimatedStorage_specified (m : TxMeta) (bgl : Nat) (g s : Option Nat)
    (h1 : m.simpleSend = false) (h2 : m.storageLimitSpecified = true) :
    (setTxGas m bgl g s).estimatedStorage = m.txParams.storageLimit := by
  simp only [setTxGas]
  repeat' split
  all_goals simp_all

/-- On a record marked `simpleSend`, `setTxGas` finalizes `estimatedGas` as
the gas already written into `txParams` and `estimatedStorage` as the
simple-send storage cost. -/
theorem setTxGas_simpleSend_estimates (m : TxMeta) (bgl : Nat) (g s : Option Nat)
    (h : m.simpleSend = true) :
    (setTxGas m bgl g s).estimatedGas = m.txParams.gas ∧
    (setTxGas m bgl g s).estimatedStorage = some SIMPLE_STORAGE_COST := by
  simp only [setTxGas]
  repeat' split
  all_goals simp_all

/-- When `storageLimitSpecified` is set, the outcome of `setTxGas` does not
depend on the storage estimate passed in: it is overwritten before use. -/
theorem setTxGas_independent_of_storageHex (m : TxMeta) (bgl : Nat)
    (g s1 s2 : Option Nat) (h : m.storageLimitSpecified = true) :
    setTxGas m bgl g s1 = setTxGas m bgl g s2 := by
  simp only [setTxGas]
  repeat' split
  all_goals simp_all

/-- When `storageLimitSpecified` is set, `setTxGas` never writes into
`txParams.storageLimit` (its copy-estimate-into-params branch is guarded by
the flag being false). -/
theorem setTxGas_txParams_storageLimit (m : TxMeta) (bgl : Nat)
    (g s : Option Nat) (h : m.storageLimitSpecified = true) :
    (setTxGas m bgl g s).txParams.storageLimit = m.txParams.storageLimit := by
  simp only [setTxGas]
  repeat' split
  all_goals simp_all

/-! ## Claim theorems -/

/-- C1: for every initial gas value and block gas limit, `addGasBuffer`
returns the initial value unchanged when it exceeds
`upper = floor(blockGasLimit*9/10)` (exact integer arithmetic); returns
`floor(initial*3/2)` (exact integer scaling, truncating) when
`initial ≤ upper` and `floor(initial*3/2) < upper`; and returns `upper`
otherwise. -/
theorem addGasBuffer_exact_cases (initial blockGasLimit : Nat) :
    (blockGasLimit * 9 / 10 < initial →
      addGasBuffer initial blockGasLimit = initial) ∧
    (initial ≤ blockGasLimit * 9 / 10 →
      initial * 3 / 2 < blockGasLimit * 9 / 10 →
      addGasBuffer initial blockGasLimit = initial * 3 / 2) ∧
    (initial ≤ blockGasLimit * 9 / 10 →
      ¬ initial * 3 / 2 < blockGasLimit * 9 / 10 →
      addGasBuffer initial blockGasLimit = blockGasLimit * 9 / 10) := by
  refine ⟨fun h => ?_, fun h1 h2 => ?_, fun h1 h2 => ?_⟩ <;>
    simp only [addGasBuffer, muln9over10, muln3over2] <;>
    split_ifs <;> omega

/-- C1 witness: the three cases of `addGasBuffer_exact_cases` at concrete
inputs (block gas limit 100000, so upper = 90000). -/
theorem addGasBuffer_exact_cases_witness :
    addGasBuffer 1000000 100000 = 1000000 ∧
    addGasBuffer 10000 100000 = 10000 * 3 / 2 ∧
    addGasBuffer 89000 100000 = 100000 * 9 / 10 :=
  ⟨(addGasBuffer_exact_cases 1000000 100000).1 (by decide),
   (addGasBuffer_exact_cases 10000 100000).2.1 (by decide) (by decide),
   (addGasBuffer_exact_cases 89000 100000).2.2 (by decide) (by decide)⟩

/-- C8: the buffer calculator is pure and deterministic (a Lean function);
once its output has reached `upper = floor(blockGasLimit*9/10)`, applying
it again with the same block ceiling is a fixed point (so never yields a
larger value); it never reduces a value below its input; and its result
never exceeds `upper` unless the unbuffered input already did. -/
theorem addGasBuffer_fixed_point_monotone (initial blockGasLimit : Nat) :
    (addGasBuffer initial blockGasLimit = blockGasLimit * 9 / 10 →
      addGasBuffer (addGasBuffer initial blockGasLimit) blockGasLimit =
        addGasBuffer initial blockGasLimit) ∧
    initial ≤ addGasBuffer initial blockGasLimit ∧
    (initial ≤ blockGasLimit * 9 / 10 →
      addGasBuffer initial blockGasLimit ≤ blockGasLimit * 9 / 10) := by
  refine ⟨fun h => ?_, ?_, fun h => ?_⟩ <;>
    simp only [addGasBuffer, muln9over10, muln3over2] at * <;>
    split_ifs at * <;> omega

/-- C8 witness: the fixed point, the no-shrinking bound and the upper bound
of `addGasBuffer_fixed_point_monotone` at concrete inputs. -/
theorem addGasBuffer_fixed_point_monotone_witness :
    addGasBuffer (addGasBuffer 89000 100000) 100000 = addGasBuffer 89000 100000 ∧
    10000 ≤ addGasBuffer 10000 100000 ∧
    addGasBuffer 10000 100000 ≤ 100000 * 9 / 10 :=
  ⟨(addGasBuffer_fixed_point_monotone 89000 100000).1 (by decide),
   (addGasBuffer_fixed_point_monotone 10000 100000).2.1,
   (addGasBuffer_fixed_point_monotone 10000 100000).2.2 (by decide)⟩

/-- C2 counterexample: a contract-creation transaction (no recipient, no
caller-specified limits) whose network `estimateGas` call fails. Before the
call both `params.gas` and `params.storageLimit` were absent; after the
failing `analyzeGasUsage` run, `params.gas` holds the provisional 19/20
fallback (950 of the 1000 block gas limit) and `params.storageLimit` holds
the 0x0 default — so the gas fields of `params` do NOT keep the values they
had before the call. -/
theorem analyzeGasUsage_failure_mutates_params_cex :
    (analyzeGasUsage (fun _ => true) (.ok { number := 1, gasLimit := 1000 })
        (fun _ => .error { message := "boom" })
        { txParams := {} } none).1.txParams.gas = some 950 ∧
    (analyzeGasUsage (fun _ => true) (.ok { number := 1, gasLimit := 1000 })
        (fun _ => .error { message := "boom" })
        { txParams := {} } none).1.txParams.storageLimit = some 0 ∧
    ({ txParams := {} } : TxMeta).txParams.gas = none ∧
    ({ txParams := {} } : TxMeta).txParams.storageLimit = none :=
  ⟨rfl, rfl, rfl, rfl⟩

/-- C2 (amended): on any failure inside `estimateTxGasAndCollateral`
(including a failing network `estimateGas` call), `analyzeGasUsage` sets
`simulationFails = {reason, errorKey, debug: {blockNumber, blockGasLimit}}`,
returns without throwing, and leaves `estimatedGas` and `estimatedStorage`
with the values they had before the call — while `params.gas` and
`params.storageLimit` may already have been provisionally rewritten by the
estimator before the failure. -/
theorem analyzeGasUsage_failure_sets_simulationFails
    (icva : String → Bool) (f : TxParams → Except JsError (Nat × Nat))
    (txMeta : TxMeta) (block : Block) (gcr : Option String) (err : JsError)
    (h : (estimateTxGasAndCollateral icva f txMeta block.gasLimit gcr).2 = .error err) :
    (analyzeGasUsage icva (.ok block) f txMeta gcr).1.simulationFails = some
      { reason := err.message
        errorKey := err.errorKey
        debug :=
          { blockNumber := block.number
            blockGasLimit := block.gasLimit
            getCodeResponse :=
              if err.errorKey == some TRANSACTION_NO_CONTRACT_ERROR_KEY then
                err.getCodeResponse
              else none } } ∧
    (analyzeGasUsage icva (.ok block) f txMeta gcr).1.estimatedGas =
      txMeta.estimatedGas ∧
    (analyzeGasUsage icva (.ok block) f txMeta gcr).1.estimatedStorage =
      txMeta.estimatedStorage ∧
    (analyzeGasUsage icva (.ok block) f txMeta gcr).2 = none := by
  have hp := estimate_preserves_estimates icva f txMeta block.gasLimit gcr
  simp only [analyzeGasUsage, h]
  exact ⟨trivial, hp.1, hp.2.1, trivial⟩

/-- C2 witness: the amended claim at a concrete failing run (the
counterexample input). -/
theorem analyzeGasUsage_failure_sets_simulationFails_witness :
    (analyzeGasUsage (fun _ => true) (.ok { number := 1, gasLimit := 1000 })
        (fun _ => .error { message := "boom" })
        { txParams := {} } none).1.simulationFails = some
      { reason := "boom", errorKey := none,
        debug := { blockNumber := 1, blockGasLimit := 1000, getCodeResponse := none } } ∧
    (analyzeGasUsage (fun _ => true) (.ok { number := 1, gasLimit := 1000 })
        (fun _ => .error { message := "boom" })
        { txParams := {} } none).1.estimatedGas = none ∧
    (analyzeGasUsage (fun _ => true) (.ok { number := 1, gasLimit := 1000 })
        (fun _ => .error { message := "boom" })
        { txParams := {} } none).1.estimatedStorage = none ∧
    (analyzeGasUsage (fun _ => true) (.ok { number := 1, gasLimit := 1000 })
        (fun _ => .error { message := "boom" })
        { txParams := {} } none).2 = none := by
  simpa using analyzeGasUsage_failure_sets_simulationFails (fun _ => true)
    (fun _ => .error { message := "boom" }) { txParams := {} }
    { number := 1, gasLimit := 1000 } none { message := "boom" } rfl

/-- C3: when the caller supplied both a gas value and a storageLimit value,
`estimateTxGasAndCollateral` short-circuits: it returns exactly that pair,
its outcome is independent of the network estimator, and after the full
(always successful) `analyzeGasUsage` run both values are still in
`txParams` unchanged. -/
theorem estimate_short_circuit
    (icva : String → Bool) (f g : TxParams → Except JsError (Nat × Nat))
    (txMeta : TxMeta) (bgl : Nat) (gcr : Option String) (block : Block)
    (gv sv : Nat)
    (hg : txMeta.txParams.gas = some gv)
    (hs : txMeta.txParams.storageLimit = some sv) :
    (estimateTxGasAndCollateral icva f txMeta bgl gcr).2 =
      .ok (some gv, some sv) ∧
    estimateTxGasAndCollateral icva f txMeta bgl gcr =
      estimateTxGasAndCollateral icva g txMeta bgl gcr ∧
    (analyzeGasUsage icva (.ok block) f txMeta gcr).1.txParams.gas = some gv ∧
    (analyzeGasUsage icva (.ok block) f txMeta gcr).1.txParams.storageLimit =
      some sv ∧
    (analyzeGasUsage icva (.ok block) f txMeta gcr).2 = none := by
  have h2 : (estimateTxGasAndCollateral icva f txMeta bgl gcr).2 =
      .ok (some gv, some sv) := by
    simp only [estimateTxGasAndCollateral]
    repeat' split
    all_goals simp_all [Option.isSome_iff_ne_none]
  have hfg : estimateTxGasAndCollateral icva f txMeta bgl gcr =
      estimateTxGasAndCollateral icva g txMeta bgl gcr := by
    simp only [estimateTxGasAndCollateral]
    repeat' split
    all_goals simp_all [Option.isSome_iff_ne_none]
  have h2b : (estimateTxGasAndCollateral icva f txMeta block.gasLimit gcr).2 =
      .ok (some gv, some sv) := by
    simp only [estimateTxGasAndCollateral]
    repeat' split
    all_goals simp_all [Option.isSome_iff_ne_none]
  have hpres := estimate_preserves_specified_gas icva f txMeta block.gasLimit gcr gv hg
  have hpress := estimate_preserves_specified_storageLimit icva f txMeta
    block.gasLimit gcr sv hs
  have htp := setTxGas_txParams_preserved
    (estimateTxGasAndCollateral icva f txMeta block.gasLimit gcr).1 block.gasLimit
    (some gv) (some sv) (Or.inr hpres.2)
  refine ⟨h2, hfg, ?_, ?_, ?_⟩ <;> simp only [analyzeGasUsage, h2b] <;>
    simp [htp, hpres.1, hpress]

/-- C3 witness: a transaction with caller-specified gas 7 and storage limit 5
short-circuits; the network estimator (here one that always fails) is never
consulted and the finalized record keeps both values. -/
theorem estimate_short_circuit_witness :
    (estimateTxGasAndCollateral (fun _ => true)
        (fun _ => .error { message := "x" })
        { txParams := { gas := some 7, storageLimit := some 5 } } 1000 none).2 =
      .ok (some 7, some 5) ∧
    estimateTxGasAndCollateral (fun _ => true) (fun _ => .error { message := "x" })
        { txParams := { gas := some 7, storageLimit := some 5 } } 1000 none =
      estimateTxGasAndCollateral (fun _ => true) (fun _ => .ok (3, 4))
        { txParams := { gas := some 7, storageLimit := some 5 } } 1000 none ∧
    (analyzeGasUsage (fun _ => true) (.ok { number := 1, gasLimit := 1000 })
        (fun _ => .error { message := "x" })
        { txParams := { gas := some 7, storageLimit := some 5 } } none).1.txParams.gas =
      some 7 ∧
    (analyzeGasUsage (fun _ => true) (.ok { number := 1, gasLimit := 1000 })
        (fun _ => .error { message := "x" })
        { txParams := { gas := some 7, storageLimit := some 5 } }
        none).1.txParams.storageLimit = some 5 ∧
    (analyzeGasUsage (fun _ => true) (.ok { number := 1, gasLimit := 1000 })
        (fun _ => .error { message := "x" })
        { txParams := { gas := some 7, storageLimit := some 5 } } none).2 = none :=
  estimate_short_circuit (fun _ => true) (fun _ => .error { message := "x" })
    (fun _ => .ok (3, 4)) { txParams := { gas := some 7, storageLimit := some 5 } }
    1000 none { number := 1, gasLimit := 1000 } 7 5 rfl rfl

/-- C4: for a transaction with a recipient the classifier reports as not a
contract, the recognized simple-transfer category, no call data and no
caller-specified gas limit, the (successful) `analyzeGasUsage` run ends with
`estimatedGas = 0x5208`, `estimatedStorage = 0x0` and `params.gas = 0x5208`
(the fixed simple-transfer cost, no buffering). -/
theorem analyzeGasUsage_simple_transfer
    (icva : String → Bool) (f : TxParams → Except JsError (Nat × Nat))
    (txMeta : TxMeta) (block : Block) (gcr : Option String) (a : String)
    (hto : txMeta.txParams.toAddr = some a) (ha : a ≠ "") (hic : icva a = false)
    (hcat : txMeta.transactionCategory = some SEND_ETHER_ACTION_KEY)
    (hdata : jsTruthyStr txMeta.txParams.data = false)
    (hgas : txMeta.txParams.gas = none) :
    (analyzeGasUsage icva (.ok block) f txMeta gcr).1.estimatedGas =
      some SIMPLE_GAS_COST ∧
    (analyzeGasUsage icva (.ok block) f txMeta gcr).1.estimatedStorage =
      some SIMPLE_STORAGE_COST ∧
    (analyzeGasUsage icva (.ok block) f txMeta gcr).1.txParams.gas =
      some SIMPLE_GAS_COST ∧
    (analyzeGasUsage icva (.ok block) f txMeta gcr).2 = none := by
  have he2 : (estimateTxGasAndCollateral icva f txMeta block.gasLimit gcr).2 =
      .ok (none, none) := by
    simp only [estimateTxGasAndCollateral]
    repeat' split
    all_goals simp_all [jsTruthyStr, Option.isSome_iff_ne_none]
  have hss : (estimateTxGasAndCollateral icva f txMeta block.gasLimit gcr).1.simpleSend =
      true := by
    simp only [estimateTxGasAndCollateral]
    repeat' split
    all_goals simp_all [jsTruthyStr, Option.isSome_iff_ne_none]
  have hg4 : (estimateTxGasAndCollateral icva f txMeta
      block.gasLimit gcr).1.txParams.gas = some SIMPLE_GAS_COST := by
    simp only [estimateTxGasAndCollateral]
    repeat' split
    all_goals simp_all [jsTruthyStr, Option.isSome_iff_ne_none]
  have hw := setTxGas_simpleSend_estimates
    (estimateTxGasAndCollateral icva f txMeta block.gasLimit gcr).1 block.gasLimit
    none none hss
  have htp := setTxGas_txParams_preserved
    (estimateTxGasAndCollateral icva f txMeta block.gasLimit gcr).1 block.gasLimit
    none none (Or.inl hss)
  simp only [analyzeGasUsage, he2]
  exact ⟨hw.1.trans hg4, hw.2, htp ▸ hg4, trivial⟩

/-- C4 witness: `analyzeGasUsage_simple_transfer` at a concrete
simple-transfer transaction. -/
theorem analyzeGasUsage_simple_transfer_witness :
    (analyzeGasUsage (fun _ => false) (.ok { number := 1, gasLimit := 1000 })
        (fun _ => .error { message := "x" })
        { txParams := { toAddr := some "0xabc" },
          transactionCategory := some SEND_ETHER_ACTION_KEY }
        none).1.estimatedGas = some SIMPLE_GAS_COST ∧
    (analyzeGasUsage (fun _ => false) (.ok { number := 1, gasLimit := 1000 })
        (fun _ => .error { message := "x" })
        { txParams := { toAddr := some "0xabc" },
          transactionCategory := some SEND_ETHER_ACTION_KEY }
        none).1.estimatedStorage = some SIMPLE_STORAGE_COST ∧
    (analyzeGasUsage (fun _ => false) (.ok { number := 1, gasLimit := 1000 })
        (fun _ => .error { message := "x" })
        { txParams := { toAddr := some "0xabc" },
          transactionCategory := some SEND_ETHER_ACTION_KEY }
        none).1.txParams.gas = some SIMPLE_GAS_COST ∧
    (analyzeGasUsage (fun _ => false) (.ok { number := 1, gasLimit := 1000 })
        (fun _ => .error { message := "x" })
        { txParams := { toAddr := some "0xabc" },
          transactionCategory := some SEND_ETHER_ACTION_KEY }
        none).2 = none :=
  analyzeGasUsage_simple_transfer (fun _ => false)
    (fun _ => .error { message := "x" })
    { txParams := { toAddr := some "0xabc" },
      transactionCategory := some SEND_ETHER_ACTION_KEY }
    { number := 1, gasLimit := 1000 } none "0xabc" rfl (by decide) rfl rfl rfl rfl

/-- C5: a transaction with a recipient, the recognized simple-transfer
category, non-empty call data and no caller-specified gas limit always fails
with the non-contract-call error: the error is recovered locally (nothing
propagates out of `analyzeGasUsage`), `simulationFails` carries the
non-contract-call errorKey and its `debug` additionally carries the
code-lookup response, and `params.gas` is left untouched. -/
theorem analyzeGasUsage_non_contract_call
    (icva : String → Bool) (f : TxParams → Except JsError (Nat × Nat))
    (txMeta : TxMeta) (block : Block) (gcr : Option String)
    (hto : jsTruthyStr txMeta.txParams.toAddr = true)
    (hcat : txMeta.transactionCategory = some SEND_ETHER_ACTION_KEY)
    (hdata : jsTruthyStr txMeta.txParams.data = true)
    (hgas : txMeta.txParams.gas = none) :
    (analyzeGasUsage icva (.ok block) f txMeta gcr).2 = none ∧
    (analyzeGasUsage icva (.ok block) f txMeta gcr).1.simulationFails = some
      { reason := "TxGasUtil - Trying to call a function on a non-contract address"
        errorKey := some TRANSACTION_NO_CONTRACT_ERROR_KEY
        debug :=
          { blockNumber := block.number
            blockGasLimit := block.gasLimit
            getCodeResponse := some gcr } } ∧
    (analyzeGasUsage icva (.ok block) f txMeta gcr).1.txParams.gas =
      txMeta.txParams.gas := by
  have he : (estimateTxGasAndCollateral icva f txMeta block.gasLimit gcr).2 =
      .error (noContractError gcr) := by
    simp only [estimateTxGasAndCollateral]
    repeat' split
    all_goals simp_all [jsTruthyStr, Option.isSome_iff_ne_none]
  have hgp : (estimateTxGasAndCollateral icva f txMeta
      block.gasLimit gcr).1.txParams.gas = txMeta.txParams.gas := by
    simp only [estimateTxGasAndCollateral]
    repeat' split
    all_goals simp_all [jsTruthyStr, Option.isSome_iff_ne_none]
  simp only [analyzeGasUsage, he]
  refine ⟨trivial, ?_, hgp⟩
  simp [noContractError]

/-- C5 witness: `analyzeGasUsage_non_contract_call` at a concrete
simple-transfer transaction carrying call data. -/
theorem analyzeGasUsage_non_contract_call_witness :
    (analyzeGasUsage (fun _ => false) (.ok { number := 1, gasLimit := 1000 })
        (fun _ => .error { message := "x" })
        { txParams := { toAddr := some "0xabc", data := some "0xdead" },
          transactionCategory := some SEND_ETHER_ACTION_KEY }
        (some "0x")).2 = none ∧
    (analyzeGasUsage (fun _ => false) (.ok { number := 1, gasLimit := 1000 })
        (fun _ => .error { message := "x" })
        { txParams := { toAddr := some "0xabc", data := some "0xdead" },
          transactionCategory := some SEND_ETHER_ACTION_KEY }
        (some "0x")).1.simulationFails = some
      { reason := "TxGasUtil - Trying to call a function on a non-contract address"
        errorKey := some TRANSACTION_NO_CONTRACT_ERROR_KEY
        debug := { blockNumber := 1, blockGasLimit := 1000,
                   getCodeResponse := some (some "0x") } } ∧
    (analyzeGasUsage (fun _ => false) (.ok { number := 1, gasLimit := 1000 })
        (fun _ => .error { message := "x" })
        { txParams := { toAddr := some "0xabc", data := some "0xdead" },
          transactionCategory := some SEND_ETHER_ACTION_KEY }
        (some "0x")).1.txParams.gas = none :=
  analyzeGasUsage_non_contract_call (fun _ => false)
    (fun _ => .error { message := "x" })
    { txParams := { toAddr := some "0xabc", data := some "0xdead" },
      transactionCategory := some SEND_ETHER_ACTION_KEY }
    { number := 1, gasLimit := 1000 } (some "0x") rfl rfl rfl rfl

/-- C6: for a transaction that is neither short-circuited (no
caller-specified gas) nor on the recognized simple-transfer path (the
recipient/category guard is false: a contract call, or no recipient), the
estimator writes the provisional fallback `floor(blockGasLimit*19/20)`
(exact integer arithmetic) into `params.gas` and returns the result of the
network `estimateGas` call on those mutated params as the estimate. -/
theorem estimate_fallback
    (icva : String → Bool) (f : TxParams → Except JsError (Nat × Nat))
    (txMeta : TxMeta) (bgl : Nat) (gcr : Option String)
    (hgas : txMeta.txParams.gas = none)
    (hns : (jsTruthyStr txMeta.txParams.toAddr &&
      (txMeta.transactionCategory == some SEND_ETHER_ACTION_KEY)) = false) :
    (estimateTxGasAndCollateral icva f txMeta bgl gcr).1.txParams.gas =
      some (bgl * 19 / 20) ∧
    (estimateTxGasAndCollateral icva f txMeta bgl gcr).2 =
      ((f (estimateTxGasAndCollateral icva f txMeta bgl gcr).1.txParams).map
        (fun gs => (some gs.1, some gs.2))) := by
  constructor <;>
    simp only [estimateTxGasAndCollateral, BnMultiplyByFraction] <;>
    repeat' split
  all_goals simp_all [jsTruthyStr, Option.isSome_iff_ne_none]

/-- C6 witness: `estimate_fallback` on a contract-creation transaction (no
recipient): the fallback 19/20 of the 1000 block gas limit is 950, and the
network estimate (3, 4) is returned. -/
theorem estimate_fallback_witness :
    (estimateTxGasAndCollateral (fun _ => true) (fun _ => .ok (3, 4))
        { txParams := {} } 1000 none).1.txParams.gas = some (1000 * 19 / 20) ∧
    (estimateTxGasAndCollateral (fun _ => true) (fun _ => .ok (3, 4))
        { txParams := {} } 1000 none).2 =
      (((fun _ => Except.ok (3, 4) :
          TxParams → Except JsError (Nat × Nat))
        (estimateTxGasAndCollateral (fun _ => true) (fun _ => .ok (3, 4))
          { txParams := {} } 1000 none).1.txParams).map
        (fun gs => (some gs.1, some gs.2))) :=
  estimate_fallback (fun _ => true) (fun _ => .ok (3, 4))
    { txParams := {} } 1000 none rfl rfl

/-- C7: on every successful (no uncaught error, no `simulationFails`)
non-simple-send run in which the caller originally supplied a storageLimit,
the final `estimatedStorage` is exactly that caller-supplied value,
regardless of what the network estimate returned. -/
theorem analyzeGasUsage_storage_precedence
    (icva : String → Bool) (blockFetch : Except JsError Block)
    (f : TxParams → Except JsError (Nat × Nat))
    (txMeta : TxMeta) (gcr : Option String) (sv : Nat)
    (hs : txMeta.txParams.storageLimit = some sv)
    (herr : (analyzeGasUsage icva blockFetch f txMeta gcr).2 = none)
    (hsf : (analyzeGasUsage icva blockFetch f txMeta gcr).1.simulationFails = none)
    (hss : (analyzeGasUsage icva blockFetch f txMeta gcr).1.simpleSend = false) :
    (analyzeGasUsage icva blockFetch f txMeta gcr).1.estimatedStorage = some sv := by
  cases blockFetch with
  | error e => simp [analyzeGasUsage] at herr
  | ok block =>
    cases hr : (estimateTxGasAndCollateral icva f txMeta block.gasLimit gcr).2 with
    | error err => simp [analyzeGasUsage, hr] at hsf
    | ok gs =>
      have hsp := estimate_storageLimitSpecified icva f txMeta block.gasLimit gcr
      have hps := estimate_preserves_specified_storageLimit icva f txMeta
        block.gasLimit gcr sv hs
      simp only [analyzeGasUsage, hr] at hss ⊢
      have hsimple : (estimateTxGasAndCollateral icva f txMeta
          block.gasLimit gcr).1.simpleSend = false := by
        rw [← setTxGas_simpleSend (estimateTxGasAndCollateral icva f txMeta
          block.gasLimit gcr).1 block.gasLimit gs.1 gs.2]
        exact hss
      rw [setTxGas_estimatedStorage_specified _ _ _ _ hsimple hsp, hps]

/-- C7 witness: `analyzeGasUsage_storage_precedence` on a contract-creation
transaction with caller-specified storage limit 5 whose network estimate
returns storage 4: the final `estimatedStorage` is still 5. -/
theorem analyzeGasUsage_storage_precedence_witness :
    ({ txParams := { storageLimit := some 5 } } : TxMeta).txParams.storageLimit =
      some 5 ∧
    (analyzeGasUsage (fun _ => true) (.ok { number := 1, gasLimit := 1000 })
        (fun _ => .ok (3, 4))
        { txParams := { storageLimit := some 5 } } none).1.estimatedStorage =
      some 5 :=
  ⟨rfl, analyzeGasUsage_storage_precedence (fun _ => true)
    (.ok { number := 1, gasLimit := 1000 }) (fun _ => .ok (3, 4))
    { txParams := { storageLimit := some 5 } } none 5 rfl rfl rfl rfl⟩

/-- C9: a failure of the initial latest-block fetch propagates uncaught and
leaves the transaction record untouched (so `simulationFails` is not set by
it), while after a successful block fetch the call never throws, and any
estimation failure is converted into a set `simulationFails`. -/
theorem analyzeGasUsage_block_fetch_propagates
    (icva : String → Bool) (f : TxParams → Except JsError (Nat × Nat))
    (txMeta : TxMeta) (gcr : Option String) (e : JsError) (block : Block) :
    analyzeGasUsage icva (.error e) f txMeta gcr = (txMeta, some e) ∧
    (analyzeGasUsage icva (.ok block) f txMeta gcr).2 = none ∧
    (∀ err,
      (estimateTxGasAndCollateral icva f txMeta block.gasLimit gcr).2 =
        .error err →
      (analyzeGasUsage icva (.ok block) f txMeta gcr).1.simulationFails ≠
        none) := by
  refine ⟨rfl, ?_, ?_⟩
  · simp only [analyzeGasUsage]
    split <;> rfl
  · intro err h
    simp [analyzeGasUsage, h]

/-- C9 witness: `analyzeGasUsage_block_fetch_propagates` at concrete inputs:
a failing block fetch is returned unchanged as an uncaught error, and an
estimation failure after a successful fetch sets `simulationFails`. -/
theorem analyzeGasUsage_block_fetch_propagates_witness :
    analyzeGasUsage (fun _ => true) (.error { message := "blockfail" })
        (fun _ => .error { message := "boom" }) { txParams := {} } none =
      ({ txParams := {} }, some { message := "blockfail" }) ∧
    (analyzeGasUsage (fun _ => true) (.ok { number := 1, gasLimit := 1000 })
        (fun _ => .error { message := "boom" }) { txParams := {} } none).2 =
      none ∧
    (analyzeGasUsage (fun _ => true) (.ok { number := 1, gasLimit := 1000 })
        (fun _ => .error { message := "boom" })
        { txParams := {} } none).1.simulationFails ≠ none := by
  have h := analyzeGasUsage_block_fetch_propagates (fun _ => true)
    (fun _ => .error { message := "boom" }) { txParams := {} } none
    { message := "blockfail" } { number := 1, gasLimit := 1000 }
  exact ⟨h.1, h.2.1, h.2.2 { message := "boom" } rfl⟩

/-- C10: after the specified-limits bookkeeping of every
`estimateTxGasAndCollateral` run, `storageLimitSpecified` is true;
consequently the metadata writer applied to the resulting record is
independent of the network-returned storage value (it is never written into
the record), the writer never copies an estimated storage value into
`params.storageLimit` (that branch is unreachable), and on every
non-simple-send record the final `estimatedStorage` equals
`params.storageLimit`. -/
theorem estimate_storage_invariant
    (icva : String → Bool) (f : TxParams → Except JsError (Nat × Nat))
    (txMeta : TxMeta) (bgl : Nat) (gcr : Option String) :
    (estimateTxGasAndCollateral icva f txMeta bgl gcr).1.storageLimitSpecified =
      true ∧
    (∀ b g s1 s2,
      setTxGas (estimateTxGasAndCollateral icva f txMeta bgl gcr).1 b g s1 =
      setTxGas (estimateTxGasAndCollateral icva f txMeta bgl gcr).1 b g s2) ∧
    (∀ b g s,
      (setTxGas (estimateTxGasAndCollateral icva f txMeta bgl gcr).1 b g
        s).txParams.storageLimit =
      (estimateTxGasAndCollateral icva f txMeta bgl gcr).1.txParams.storageLimit) ∧
    ((estimateTxGasAndCollateral icva f txMeta bgl gcr).1.simpleSend = false →
      ∀ b g s,
        (setTxGas (estimateTxGasAndCollateral icva f txMeta bgl gcr).1 b g
          s).estimatedStorage =
        (estimateTxGasAndCollateral icva f txMeta bgl gcr).1.txParams.storageLimit) := by
  have hsp := estimate_storageLimitSpecified icva f txMeta bgl gcr
  exact ⟨hsp,
    fun b g s1 s2 => setTxGas_independent_of_storageHex _ b g s1 s2 hsp,
    fun b g s => setTxGas_txParams_storageLimit _ b g s hsp,
    fun hss b g s => setTxGas_estimatedStorage_specified _ b g s hss hsp⟩

/-- C10 witness: `estimate_storage_invariant` at a concrete contract-creation
transaction: the defaulted storage limit is marked specified, the writer
output is the same for network storage values 4 and 9, and the finalized
`estimatedStorage` equals `params.storageLimit`. -/
theorem estimate_storage_invariant_witness :
    (estimateTxGasAndCollateral (fun _ => true) (fun _ => .ok (3, 4))
        { txParams := {} } 1000 none).1.storageLimitSpecified = true ∧
    setTxGas (estimateTxGasAndCollateral (fun _ => true) (fun _ => .ok (3, 4))
        { txParams := {} } 1000 none).1 1000 (some 3) (some 4) =
      setTxGas (estimateTxGasAndCollateral (fun _ => true) (fun _ => .ok (3, 4))
        { txParams := {} } 1000 none).1 1000 (some 3) (some 9) ∧
    (setTxGas (estimateTxGasAndCollateral (fun _ => true) (fun _ => .ok (3, 4))
        { txParams := {} } 1000 none).1 1000 (some 3)
        (some 4)).txParams.storageLimit =
      (estimateTxGasAndCollateral (fun _ => true) (fun _ => .ok (3, 4))
        { txParams := {} } 1000 none).1.txParams.storageLimit ∧
    (setTxGas (estimateTxGasAndCollateral (fun _ => true) (fun _ => .ok (3, 4))
        { txParams := {} } 1000 none).1 1000 (some 3) (some 4)).estimatedStorage =
      (estimateTxGasAndCollateral (fun _ => true) (fun _ => .ok (3, 4))
        { txParams := {} } 1000 none).1.txParams.storageLimit := by
  have h := estimate_storage_invariant (fun _ => true) (fun _ => .ok (3, 4))
    { txParams := {} } 1000 none
  exact ⟨h.1, h.2.1 1000 (some 3) (some 4) (some 9),
    h.2.2.1 1000 (some 3) (some 4), h.2.2.2 rfl 1000 (some 3) (some 4)⟩

end TxGasUtil
